import Mathlib

/-!
Shallow embedding of the im-native-dialog crate (src/lib.rs).

The crate wraps a blocking native file dialog for immediate-mode GUIs:
an `ImNativeFileDialog T` is a single slot holding, when a request is in
flight, the receiving end of a crossbeam bounded(1) channel. `show`
spawns a worker thread that runs the dialog and sends the result over
the channel; `check` polls the channel non-blockingly; `is_open` reports
whether a request is in flight.

The channel is modelled explicitly as a value (`Channel`), with the
buffer of capacity 1 and flags recording whether either end has been
dropped. The worker thread body is modelled as a function from the
channel state at send time to either the updated channel or a panic
message (`Except String`). `check` is instrumented with the warning log
lines it emits and the number of non-blocking probes and blocking
receives it performs, so the logging and non-blocking contracts can be
stated.
-/

/-- Paths handed to and returned from the native dialog (PathBuf). -/
abbrev PathBuf := String

/-- Opaque error type of the native_dialog crate. -/
structure NativeDialogError where
  msg : String
deriving DecidableEq

/-- The native FileDialog builder: the crate only uses its initial location. -/
structure FileDialog where
  location : Option PathBuf
deriving DecidableEq

/-- FileDialog::new(). -/
def FileDialog.new : FileDialog := { location := none }

/-- FileDialog::set_location(location). -/
def FileDialog.set_location (d : FileDialog) (l : PathBuf) : FileDialog :=
  { d with location := some l }

/-- The blocking platform calls of the native dialog layer, treated as an
opaque collaborator: one oracle per dialog kind. -/
structure NativeLayer where
  show_open_multiple_file : FileDialog → Except NativeDialogError (List PathBuf)
  show_open_single_dir : FileDialog → Except NativeDialogError (Option PathBuf)
  show_open_single_file : FileDialog → Except NativeDialogError (Option PathBuf)
  show_save_single_file : FileDialog → Except NativeDialogError (Option PathBuf)

/-- Decidable equality of Except values, used to compare delivered results
on concrete inputs. -/
instance {e a : Type} [DecidableEq e] [DecidableEq a] : DecidableEq (Except e a) :=
  fun x y =>
  match x, y with
  | Except.error ex, Except.error ey =>
    if h : ex = ey then Decidable.isTrue (by rw [h])
    else Decidable.isFalse (by intro hc; cases hc; exact h rfl)
  | Except.ok vx, Except.ok vy =>
    if h : vx = vy then Decidable.isTrue (by rw [h])
    else Decidable.isFalse (by intro hc; cases hc; exact h rfl)
  | Except.error _, Except.ok _ => Decidable.isFalse (by intro hc; cases hc)
  | Except.ok _, Except.error _ => Decidable.isFalse (by intro hc; cases hc)

/-- State of a crossbeam_channel bounded channel carrying one
Result of T or NativeDialogError. -/
structure Channel (T : Type) where
  capacity : Nat
  buffer : Option (Except NativeDialogError T)
  senderDropped : Bool
  receiverDropped : Bool
deriving DecidableEq

/-- crossbeam_channel::bounded(cap): a fresh empty channel, both ends alive. -/
def Channel.bounded (T : Type) (cap : Nat) : Channel T :=
  { capacity := cap, buffer := none, senderDropped := false, receiverDropped := false }

/-- Errors of crossbeam_channel::Receiver::try_recv. -/
inductive TryRecvError where
  | Empty
  | Disconnected
deriving DecidableEq

/-- Receiver::try_recv(): returns a buffered message if present (also when
the sender is gone), otherwise reports Disconnected or Empty. Never blocks. -/
def Channel.try_recv {T : Type} (ch : Channel T) :
    Except TryRecvError (Except NativeDialogError T × Channel T) :=
  match ch.buffer with
  | some v => Except.ok (v, { ch with buffer := none })
  | none =>
    if ch.senderDropped then Except.error TryRecvError.Disconnected
    else Except.error TryRecvError.Empty

/-- Sender::send(v): fails iff the receiving end has been dropped,
otherwise stores the message in the buffer. -/
def Channel.send {T : Type} (ch : Channel T) (v : Except NativeDialogError T) :
    Except Unit (Channel T) :=
  if ch.receiverDropped then Except.error ()
  else Except.ok { ch with buffer := some v }

/-- The result of send followed by expect(msg): a panic with msg on a
failed send. -/
def sendExpect {T : Type} (r : Except Unit (Channel T)) (msg : String) :
    Except String (Channel T) :=
  match r with
  | Except.ok ch => Except.ok ch
  | Except.error _ => Except.error msg

/-- ImNativeDialogError of the crate. -/
inductive ImNativeDialogError where
  | AlreadyOpen
deriving DecidableEq

/-- The slot itself: the receiver is present iff a request is in flight. -/
structure ImNativeFileDialog (T : Type) where
  receiver : Option (Channel T)
deriving DecidableEq

/-- Default::default() for the slot. -/
def ImNativeFileDialog.mkDefault (T : Type) : ImNativeFileDialog T :=
  { receiver := none }

/-- Everything a call to show produces: its return value, the slot state
after the call, and the body of the spawned worker thread (none when no
thread was spawned). -/
structure ShowOut (T : Type) where
  result : Except ImNativeDialogError Unit
  state : ImNativeFileDialog T
  worker : Option (Channel T → Except String (Channel T))

/-- ImNativeFileDialog::show(run): refuses with AlreadyOpen when a receiver
is present; otherwise creates a bounded(1) channel, spawns a thread running
run on a fresh FileDialog, and stores the receiving end. -/
def ImNativeFileDialog.show {T : Type}
    (s : ImNativeFileDialog T)
    (run : Channel T → FileDialog → Except String (Channel T)) : ShowOut T :=
  match s.receiver with
  | some _ =>
    { result := Except.error ImNativeDialogError.AlreadyOpen
      state := s
      worker := none }
  | none =>
    let receiver := Channel.bounded T 1
    { result := Except.ok ()
      state := { receiver := some receiver }
      worker := some (fun sender => run sender FileDialog.new) }

/-- Panic message of the expect in show_open_multiple_file. -/
def msgOpenMultiple : String := "error sending show_open_multiple_file result to ui"

/-- Panic message of the expect in open_single_dir. -/
def msgOpenSingleDir : String := "error sending open_single_dir result to ui"

/-- Panic message of the expect in open_single_file. -/
def msgOpenSingleFile : String := "error sending open_single_file result to ui"

/-- Panic message of the expect in show_save_single_file. -/
def msgSaveSingleFile : String := "error sending show_save_single_file result to ui"

/-- Warning line logged by check when the channel is disconnected. -/
def msgDisconnectWarning : String := "OpenDialog channel disconnected"

/-- ImNativeFileDialog::show_open_multiple_file(location). -/
def ImNativeFileDialog.show_open_multiple_file (native : NativeLayer)
    (s : ImNativeFileDialog (List PathBuf)) (location : Option PathBuf) :
    ShowOut (List PathBuf) :=
  s.show (fun sender dialog =>
    let dialog := match location with
      | some l => dialog.set_location l
      | none => dialog
    let result := native.show_open_multiple_file dialog
    sendExpect (sender.send result) msgOpenMultiple)

/-- ImNativeFileDialog::open_single_dir(location). -/
def ImNativeFileDialog.open_single_dir (native : NativeLayer)
    (s : ImNativeFileDialog (Option PathBuf)) (location : Option PathBuf) :
    ShowOut (Option PathBuf) :=
  s.show (fun sender dialog =>
    let dialog := match location with
      | some l => dialog.set_location l
      | none => dialog
    let result := native.show_open_single_dir dialog
    sendExpect (sender.send result) msgOpenSingleDir)

/-- ImNativeFileDialog::open_single_file(location). -/
def ImNativeFileDialog.open_single_file (native : NativeLayer)
    (s : ImNativeFileDialog (Option PathBuf)) (location : Option PathBuf) :
    ShowOut (Option PathBuf) :=
  s.show (fun sender dialog =>
    let dialog := match location with
      | some l => dialog.set_location l
      | none => dialog
    let result := native.show_open_single_file dialog
    sendExpect (sender.send result) msgOpenSingleFile)

/-- ImNativeFileDialog::show_save_single_file(location). -/
def ImNativeFileDialog.show_save_single_file (native : NativeLayer)
    (s : ImNativeFileDialog (Option PathBuf)) (location : Option PathBuf) :
    ShowOut (Option PathBuf) :=
  s.show (fun sender dialog =>
    let dialog := match location with
      | some l => dialog.set_location l
      | none => dialog
    let result := native.show_save_single_file dialog
    sendExpect (sender.send result) msgSaveSingleFile)

/-- Everything a call to check produces: its return value, the slot state
after the call, the warning lines logged, and the numbers of non-blocking
try_recv probes and blocking receives performed on the channel. -/
structure CheckOut (T : Type) where
  result : Option (Except NativeDialogError T)
  state : ImNativeFileDialog T
  warnings : List String
  tryRecvCalls : Nat
  blockingRecvCalls : Nat

/-- ImNativeFileDialog::check(): takes the receiver out of the slot; if one
was present, performs a single try_recv: a delivered message is returned
(receiver dropped), a disconnect is masked as Ok of the default value with
one warning logged (receiver dropped), and an empty poll puts the very same
receiver back and returns nothing. With no receiver present, returns
nothing. -/
def ImNativeFileDialog.check {T : Type} [Inhabited T]
    (s : ImNativeFileDialog T) : CheckOut T :=
  match s.receiver with
  | some receiver =>
    match receiver.try_recv with
    | Except.ok (result, _) =>
      { result := some result
        state := { receiver := none }
        warnings := []
        tryRecvCalls := 1
        blockingRecvCalls := 0 }
    | Except.error TryRecvError.Disconnected =>
      { result := some (Except.ok Inhabited.default)
        state := { receiver := none }
        warnings := [msgDisconnectWarning]
        tryRecvCalls := 1
        blockingRecvCalls := 0 }
    | Except.error TryRecvError.Empty =>
      { result := none
        state := { receiver := some receiver }
        warnings := []
        tryRecvCalls := 1
        blockingRecvCalls := 0 }
  | none =>
    { result := none
      state := { receiver := none }
      warnings := []
      tryRecvCalls := 0
      blockingRecvCalls := 0 }

/-- ImNativeFileDialog::is_open(). -/
def ImNativeFileDialog.is_open {T : Type} (s : ImNativeFileDialog T) : Bool :=
  s.receiver.isSome

/-- Runs the worker thread spawned by a show call on a given channel state,
when one was spawned. -/
def ShowOut.runWorker {T : Type} (out : ShowOut T) (ch : Channel T) :
    Option (Except String (Channel T)) :=
  out.worker.map (fun w => w ch)

/-- C1: while a request is in flight (the receiver is present), show and each
of the four kind-specific open operations return Err AlreadyOpen, spawn no
worker thread, and leave the slot state (the stored receiver) unchanged. -/
theorem open_while_in_flight_fails_without_side_effects
    (T : Type) (ch : Channel T)
    (run : Channel T → FileDialog → Except String (Channel T))
    (native : NativeLayer) (location : Option PathBuf)
    (chM : Channel (List PathBuf)) (chD chF chV : Channel (Option PathBuf)) :
    (ImNativeFileDialog.show { receiver := some ch } run).result
      = Except.error ImNativeDialogError.AlreadyOpen ∧
    (ImNativeFileDialog.show { receiver := some ch } run).state = { receiver := some ch } ∧
    (ImNativeFileDialog.show { receiver := some ch } run).worker = none ∧
    ((ImNativeFileDialog.show_open_multiple_file native { receiver := some chM } location).result
        = Except.error ImNativeDialogError.AlreadyOpen ∧
      (ImNativeFileDialog.show_open_multiple_file native { receiver := some chM } location).state
        = { receiver := some chM } ∧
      (ImNativeFileDialog.show_open_multiple_file native { receiver := some chM } location).worker
        = none) ∧
    ((ImNativeFileDialog.open_single_dir native { receiver := some chD } location).result
        = Except.error ImNativeDialogError.AlreadyOpen ∧
      (ImNativeFileDialog.open_single_dir native { receiver := some chD } location).state
        = { receiver := some chD } ∧
      (ImNativeFileDialog.open_single_dir native { receiver := some chD } location).worker
        = none) ∧
    ((ImNativeFileDialog.open_single_file native { receiver := some chF } location).result
        = Except.error ImNativeDialogError.AlreadyOpen ∧
      (ImNativeFileDialog.open_single_file native { receiver := some chF } location).state
        = { receiver := some chF } ∧
      (ImNativeFileDialog.open_single_file native { receiver := some chF } location).worker
        = none) ∧
    ((ImNativeFileDialog.show_save_single_file native { receiver := some chV } location).result
        = Except.error ImNativeDialogError.AlreadyOpen ∧
      (ImNativeFileDialog.show_save_single_file native { receiver := some chV } location).state
        = { receiver := some chV } ∧
      (ImNativeFileDialog.show_save_single_file native { receiver := some chV } location).worker
        = none) :=
  ⟨rfl, rfl, rfl, ⟨rfl, rfl, rfl⟩, ⟨rfl, rfl, rfl⟩, ⟨rfl, rfl, rfl⟩, ⟨rfl, rfl, rfl⟩⟩

/-- C2: when the in-flight channel holds a delivered value, check consumes it,
returns it, and empties the slot; the next check returns none, and check on a
slot with no request in flight returns none and leaves it empty. -/
theorem check_delivers_exactly_once
    (T : Type) [Inhabited T] (cap : Nat) (v : Except NativeDialogError T)
    (sd rd : Bool) :
    (ImNativeFileDialog.check { receiver := some ⟨cap, some v, sd, rd⟩ }).result = some v ∧
    (ImNativeFileDialog.check { receiver := some ⟨cap, some v, sd, rd⟩ }).state
      = { receiver := none } ∧
    (ImNativeFileDialog.check
        (ImNativeFileDialog.check { receiver := some ⟨cap, some v, sd, rd⟩ }).state).result
      = none ∧
    (ImNativeFileDialog.check ({ receiver := none } : ImNativeFileDialog T)).result = none ∧
    (ImNativeFileDialog.check ({ receiver := none } : ImNativeFileDialog T)).state
      = { receiver := none } :=
  ⟨rfl, rfl, rfl, rfl, rfl⟩

/-- C3: on a slot with no request in flight, show and each kind-specific open
operation return Ok, store the receiving end of a fresh channel of capacity
exactly 1, spawn a worker, and leave the slot reporting is_open. -/
theorem open_on_empty_slot_succeeds
    (T : Type) (run : Channel T → FileDialog → Except String (Channel T))
    (native : NativeLayer) (location : Option PathBuf) :
    (ImNativeFileDialog.show ({ receiver := none } : ImNativeFileDialog T) run).result
      = Except.ok () ∧
    (ImNativeFileDialog.show ({ receiver := none } : ImNativeFileDialog T) run).state
      = { receiver := some { capacity := 1, buffer := none,
                             senderDropped := false, receiverDropped := false } } ∧
    (ImNativeFileDialog.show ({ receiver := none } : ImNativeFileDialog T) run).worker.isSome
      = true ∧
    ImNativeFileDialog.is_open
        (ImNativeFileDialog.show ({ receiver := none } : ImNativeFileDialog T) run).state
      = true ∧
    ((ImNativeFileDialog.show_open_multiple_file native { receiver := none } location).result
        = Except.ok () ∧
      (ImNativeFileDialog.show_open_multiple_file native { receiver := none } location).state
        = { receiver := some (Channel.bounded (List PathBuf) 1) } ∧
      (ImNativeFileDialog.show_open_multiple_file native { receiver := none } location).worker.isSome
        = true ∧
      ImNativeFileDialog.is_open
          (ImNativeFileDialog.show_open_multiple_file native { receiver := none } location).state
        = true) ∧
    ((ImNativeFileDialog.open_single_dir native { receiver := none } location).result
        = Except.ok () ∧
      (ImNativeFileDialog.open_single_dir native { receiver := none } location).state
        = { receiver := some (Channel.bounded (Option PathBuf) 1) } ∧
      (ImNativeFileDialog.open_single_dir native { receiver := none } location).worker.isSome
        = true ∧
      ImNativeFileDialog.is_open
          (ImNativeFileDialog.open_single_dir native { receiver := none } location).state
        = true) ∧
    ((ImNativeFileDialog.open_single_file native { receiver := none } location).result
        = Except.ok () ∧
      (ImNativeFileDialog.open_single_file native { receiver := none } location).state
        = { receiver := some (Channel.bounded (Option PathBuf) 1) } ∧
      (ImNativeFileDialog.open_single_file native { receiver := none } location).worker.isSome
        = true ∧
      ImNativeFileDialog.is_open
          (ImNativeFileDialog.open_single_file native { receiver := none } location).state
        = true) ∧
    ((ImNativeFileDialog.show_save_single_file native { receiver := none } location).result
        = Except.ok () ∧
      (ImNativeFileDialog.show_save_single_file native { receiver := none } location).state
        = { receiver := some (Channel.bounded (Option PathBuf) 1) } ∧
      (ImNativeFileDialog.show_save_single_file native { receiver := none } location).worker.isSome
        = true ∧
      ImNativeFileDialog.is_open
          (ImNativeFileDialog.show_save_single_file native { receiver := none } location).state
        = true) :=
  ⟨rfl, rfl, rfl, rfl, ⟨rfl, rfl, rfl, rfl⟩, ⟨rfl, rfl, rfl, rfl⟩,
    ⟨rfl, rfl, rfl, rfl⟩, ⟨rfl, rfl, rfl, rfl⟩⟩

/-- C4: when the in-flight channel is empty and the sender is still alive,
check returns none and puts the very same receiver back: the slot stays in
flight with an unchanged channel. -/
theorem check_empty_poll_keeps_receiver
    (T : Type) [Inhabited T] (cap : Nat) (rd : Bool) :
    (ImNativeFileDialog.check
        ({ receiver := some ⟨cap, none, false, rd⟩ } : ImNativeFileDialog T)).result = none ∧
    (ImNativeFileDialog.check
        ({ receiver := some ⟨cap, none, false, rd⟩ } : ImNativeFileDialog T)).state
      = { receiver := some ⟨cap, none, false, rd⟩ } ∧
    ImNativeFileDialog.is_open
      (ImNativeFileDialog.check
        ({ receiver := some ⟨cap, none, false, rd⟩ } : ImNativeFileDialog T)).state = true ∧
    (ImNativeFileDialog.check
        ({ receiver := some ⟨cap, none, false, rd⟩ } : ImNativeFileDialog T)).warnings = [] :=
  ⟨rfl, rfl, rfl, rfl⟩

/-- C5: when the in-flight channel is found disconnected (empty buffer and the
sender dropped), check empties the slot, logs exactly one warning line, and
returns some Ok of the default value instead of an error. -/
theorem check_disconnected_masks_as_default
    (T : Type) [Inhabited T] (cap : Nat) (rd : Bool) :
    (ImNativeFileDialog.check
        ({ receiver := some ⟨cap, none, true, rd⟩ } : ImNativeFileDialog T)).result
      = some (Except.ok Inhabited.default) ∧
    (ImNativeFileDialog.check
        ({ receiver := some ⟨cap, none, true, rd⟩ } : ImNativeFileDialog T)).state
      = { receiver := none } ∧
    (ImNativeFileDialog.check
        ({ receiver := some ⟨cap, none, true, rd⟩ } : ImNativeFileDialog T)).warnings
      = [msgDisconnectWarning] ∧
    (ImNativeFileDialog.check
        ({ receiver := some ⟨cap, none, true, rd⟩ } : ImNativeFileDialog T)).warnings.length
      = 1 :=
  ⟨rfl, rfl, rfl, rfl⟩

/-- C6: is_open is true exactly when a receiver is stored, i.e. a request is
in flight; being a plain function of the slot it performs no state change. -/
theorem is_open_iff_receiver_present
    (T : Type) (s : ImNativeFileDialog T) :
    ImNativeFileDialog.is_open s = true ↔ ∃ ch, s.receiver = some ch := by
  obtain ⟨r⟩ := s
  cases r with
  | none => simp [ImNativeFileDialog.is_open]
  | some ch => simp [ImNativeFileDialog.is_open]

/-- C7: the slot is a two-state machine: freshly created it is empty and not
open; show on an empty slot succeeds and makes it open; after check consumes a
delivered value or a disconnect, the slot is not open and a new show succeeds;
show while in flight fails and changes nothing, so at most one request is ever
outstanding and the slot is reusable indefinitely. -/
theorem slot_two_state_lifecycle
    (T : Type) [Inhabited T]
    (run run2 : Channel T → FileDialog → Except String (Channel T))
    (cap : Nat) (v : Except NativeDialogError T) (sd rd rd2 : Bool) (ch : Channel T) :
    (ImNativeFileDialog.mkDefault T).receiver = none ∧
    ImNativeFileDialog.is_open (ImNativeFileDialog.mkDefault T) = false ∧
    ((ImNativeFileDialog.mkDefault T).show run).result = Except.ok () ∧
    ImNativeFileDialog.is_open ((ImNativeFileDialog.mkDefault T).show run).state = true ∧
    ImNativeFileDialog.is_open
        (ImNativeFileDialog.check { receiver := some ⟨cap, some v, sd, rd⟩ }).state = false ∧
    ((ImNativeFileDialog.check { receiver := some ⟨cap, some v, sd, rd⟩ }).state.show run2).result
      = Except.ok () ∧
    ImNativeFileDialog.is_open
        (ImNativeFileDialog.check
          ({ receiver := some ⟨cap, none, true, rd2⟩ } : ImNativeFileDialog T)).state = false ∧
    ((ImNativeFileDialog.check
        ({ receiver := some ⟨cap, none, true, rd2⟩ } : ImNativeFileDialog T)).state.show run2).result
      = Except.ok () ∧
    (ImNativeFileDialog.show { receiver := some ch } run).state = { receiver := some ch } ∧
    (ImNativeFileDialog.show { receiver := some ch } run).result
      = Except.error ImNativeDialogError.AlreadyOpen :=
  ⟨rfl, rfl, rfl, rfl, rfl, rfl, rfl, rfl, rfl, rfl⟩

/-- C8: the worker closure installed by each kind-specific open operation
builds the dialog with its location field set to the given initial location
(unset when none), invokes the platform call of that kind, and stores the
resulting value unchanged in the channel buffer when the receiving end is
still alive. -/
theorem worker_configures_dialog_and_sends_result
    (native : NativeLayer) (location : Option PathBuf) (cap : Nat)
    (bufM : Option (Except NativeDialogError (List PathBuf)))
    (bufD bufF bufV : Option (Except NativeDialogError (Option PathBuf)))
    (sd : Bool) :
    ShowOut.runWorker
        (ImNativeFileDialog.show_open_multiple_file native { receiver := none } location)
        ⟨cap, bufM, sd, false⟩
      = some (Except.ok
          ⟨cap, some (native.show_open_multiple_file { location := location }), sd, false⟩) ∧
    ShowOut.runWorker
        (ImNativeFileDialog.open_single_dir native { receiver := none } location)
        ⟨cap, bufD, sd, false⟩
      = some (Except.ok
          ⟨cap, some (native.show_open_single_dir { location := location }), sd, false⟩) ∧
    ShowOut.runWorker
        (ImNativeFileDialog.open_single_file native { receiver := none } location)
        ⟨cap, bufF, sd, false⟩
      = some (Except.ok
          ⟨cap, some (native.show_open_single_file { location := location }), sd, false⟩) ∧
    ShowOut.runWorker
        (ImNativeFileDialog.show_save_single_file native { receiver := none } location)
        ⟨cap, bufV, sd, false⟩
      = some (Except.ok
          ⟨cap, some (native.show_save_single_file { location := location }), sd, false⟩) := by
  cases location <;> exact ⟨rfl, rfl, rfl, rfl⟩

/-- C9: check performs no blocking receive and at most one non-blocking
try_recv probe on any slot state, and is_open is a pure read of the stored
receiver, so neither ever waits on the worker. -/
theorem check_and_is_open_nonblocking
    (T : Type) [Inhabited T] (s : ImNativeFileDialog T) :
    (ImNativeFileDialog.check s).blockingRecvCalls = 0 ∧
    (ImNativeFileDialog.check s).tryRecvCalls ≤ 1 ∧
    ImNativeFileDialog.is_open s = s.receiver.isSome := by
  obtain ⟨r⟩ := s
  cases r with
  | none => exact ⟨rfl, Nat.zero_le 1, rfl⟩
  | some ch =>
    obtain ⟨cap, buf, sd, rd⟩ := ch
    cases buf with
    | some v => exact ⟨rfl, Nat.le_refl 1, rfl⟩
    | none => cases sd <;> exact ⟨rfl, Nat.le_refl 1, rfl⟩

/-- C10: when the receiving end of the channel has been dropped, the send in
each installed worker closure fails and the expect makes the worker panic
with the corresponding message instead of completing silently. -/
theorem worker_panics_when_receiver_dropped
    (native : NativeLayer) (location : Option PathBuf) (cap : Nat)
    (bufM : Option (Except NativeDialogError (List PathBuf)))
    (bufD bufF bufV : Option (Except NativeDialogError (Option PathBuf)))
    (sd : Bool) :
    ShowOut.runWorker
        (ImNativeFileDialog.show_open_multiple_file native { receiver := none } location)
        ⟨cap, bufM, sd, true⟩
      = some (Except.error msgOpenMultiple) ∧
    ShowOut.runWorker
        (ImNativeFileDialog.open_single_dir native { receiver := none } location)
        ⟨cap, bufD, sd, true⟩
      = some (Except.error msgOpenSingleDir) ∧
    ShowOut.runWorker
        (ImNativeFileDialog.open_single_file native { receiver := none } location)
        ⟨cap, bufF, sd, true⟩
      = some (Except.error msgOpenSingleFile) ∧
    ShowOut.runWorker
        (ImNativeFileDialog.show_save_single_file native { receiver := none } location)
        ⟨cap, bufV, sd, true⟩
      = some (Except.error msgSaveSingleFile) := by
  cases location <;> exact ⟨rfl, rfl, rfl, rfl⟩
